import Mathlib

/-!
Shallow embedding of the banking ledger in `src/main.py`.

Monetary amounts are rationals (the program manipulates Python numbers,
converted from user input by `float(...)`; the exact-arithmetic model uses
`ℚ`).  The interactive menu, prompts and printing are I/O glue outside the
core; the printed failure messages are modelled by the constructors of
`Resultado`, whose `toBool` projection is the boolean the Python methods
return.  The wall-clock timestamp stored in each history record
(`datetime.now()`) is nondeterministic I/O and is not modelled; a record
keeps its transaction tag and amount.
-/

/-- The transaction tag stored in a history record: in the source this is
`transacao.__class__.__name__`, i.e. the string `"Saque"` or `"Deposito"`. -/
inductive TipoTransacao
  | saque
  | deposito
deriving DecidableEq, Repr

/-- One entry of `Historico._transacoes`: the dict
`{"tipo": ..., "valor": ..., "data": ...}` (timestamp not modelled). -/
structure Registro where
  tipo : TipoTransacao
  valor : ℚ
deriving DecidableEq, Repr

/-- `Historico.adicionar_transacao`: appends one record
(`self._transacoes.append({...})`). -/
def Historico.adicionarTransacao (h : List Registro) (tipo : TipoTransacao)
    (valor : ℚ) : List Registro :=
  h ++ [⟨tipo, valor⟩]

/-- Outcome of an account operation.  The Python methods return a `bool`
and additionally print one failure message; each constructor records which
message was printed.  Spec error taxonomy: `valorInvalido` = InvalidAmount,
`saldoInsuficiente` = InsufficientFunds, `acimaDoLimite` = LimitExceeded,
`maxSaquesAtingido` = MaxWithdrawalsReached. -/
inductive Resultado
  | ok
  | valorInvalido
  | saldoInsuficiente
  | acimaDoLimite
  | maxSaquesAtingido
deriving DecidableEq, Repr

/-- The boolean actually returned by the Python methods. -/
def Resultado.toBool : Resultado → Bool
  | .ok => true
  | _ => false

/-- Class `Conta`: mutable state of a base account (`_saldo`, `_numero`,
`_agencia`, `_historico`; the `_cliente` back-reference carries no state the
core reads and is not modelled). -/
structure Conta where
  saldo : ℚ
  numero : Nat
  agencia : String
  historico : List Registro
deriving DecidableEq, Repr

/-- `Conta.__init__` / `Conta.nova_conta`: zero balance, agency `"0001"`,
empty history. -/
def Conta.novaConta (numero : Nat) : Conta :=
  { saldo := 0, numero := numero, agencia := "0001", historico := [] }

/-- `Conta.sacar`: fails on `valor <= 0` ("Valor inválido"), then on
`valor > self._saldo` ("Saldo insuficiente"); otherwise
`self._saldo -= valor` and success. -/
def Conta.sacar (c : Conta) (valor : ℚ) : Resultado × Conta :=
  if valor ≤ 0 then
    (.valorInvalido, c)
  else if valor > c.saldo then
    (.saldoInsuficiente, c)
  else
    (.ok, { c with saldo := c.saldo - valor })

/-- `Conta.depositar`: fails on `valor <= 0` ("Valor inválido"); otherwise
`self._saldo += valor` and success. -/
def Conta.depositar (c : Conta) (valor : ℚ) : Resultado × Conta :=
  if valor ≤ 0 then
    (.valorInvalido, c)
  else
    (.ok, { c with saldo := c.saldo + valor })

/-- Class `ContaCorrente(Conta)`: adds the per-withdrawal ceiling `_limite`
and the lifetime withdrawal cap `_limite_saques`. -/
structure ContaCorrente extends Conta where
  limite : ℚ
  limiteSaques : Nat
deriving DecidableEq, Repr

/-- `ContaCorrente.__init__` defaults: `limite=500`, `limite_saques=3`. -/
def ContaCorrente.novaConta (numero : Nat) : ContaCorrente :=
  { Conta.novaConta numero with limite := 500, limiteSaques := 3 }

/-- The `numero_saques` computation at the top of `ContaCorrente.sacar`:
`len([t for t in self.historico.transacoes if t["tipo"] == Saque.__name__])`. -/
def numeroSaques (h : List Registro) : Nat :=
  (h.filter (fun t => t.tipo == TipoTransacao.saque)).length

/-- `ContaCorrente.sacar`: fails on `valor > self._limite` ("Valor acima do
limite"), then on `numero_saques >= self._limite_saques` ("Número máximo de
saques atingido"); otherwise delegates to `super().sacar(valor)`. -/
def ContaCorrente.sacar (cc : ContaCorrente) (valor : ℚ) :
    Resultado × ContaCorrente :=
  if valor > cc.limite then
    (.acimaDoLimite, cc)
  else if numeroSaques cc.historico ≥ cc.limiteSaques then
    (.maxSaquesAtingido, cc)
  else
    ((Conta.sacar cc.toConta valor).1,
      { cc with toConta := (Conta.sacar cc.toConta valor).2 })

/-- `depositar` is inherited unchanged by `ContaCorrente` from `Conta`. -/
def ContaCorrente.depositar (cc : ContaCorrente) (valor : ℚ) :
    Resultado × ContaCorrente :=
  ((Conta.depositar cc.toConta valor).1,
    { cc with toConta := (Conta.depositar cc.toConta valor).2 })

/-- `Saque.registrar(conta)` on a base `Conta`: `if conta.sacar(self.valor):
conta.historico.adicionar_transacao(self)`. -/
def Saque.registrar (c : Conta) (valor : ℚ) : Resultado × Conta :=
  if (c.sacar valor).1 = .ok then
    ((c.sacar valor).1,
      { (c.sacar valor).2 with historico := Historico.adicionarTransacao (c.sacar valor).2.historico TipoTransacao.saque valor })
  else
    c.sacar valor

/-- `Deposito.registrar(conta)` on a base `Conta`. -/
def Deposito.registrar (c : Conta) (valor : ℚ) : Resultado × Conta :=
  if (c.depositar valor).1 = .ok then
    ((c.depositar valor).1,
      { (c.depositar valor).2 with historico := Historico.adicionarTransacao (c.depositar valor).2.historico TipoTransacao.deposito valor })
  else
    c.depositar valor

/-- `Saque.registrar(conta)` where `conta` is a `ContaCorrente` (the only
account kind the glue ever constructs): dynamic dispatch reaches
`ContaCorrente.sacar`. -/
def Saque.registrarCorrente (cc : ContaCorrente) (valor : ℚ) :
    Resultado × ContaCorrente :=
  if (cc.sacar valor).1 = .ok then
    ((cc.sacar valor).1,
      { (cc.sacar valor).2 with historico := Historico.adicionarTransacao (cc.sacar valor).2.historico TipoTransacao.saque valor })
  else
    cc.sacar valor

/-- `Deposito.registrar(conta)` where `conta` is a `ContaCorrente`. -/
def Deposito.registrarCorrente (cc : ContaCorrente) (valor : ℚ) :
    Resultado × ContaCorrente :=
  if (cc.depositar valor).1 = .ok then
    ((cc.depositar valor).1,
      { (cc.depositar valor).2 with historico := Historico.adicionarTransacao (cc.depositar valor).2.historico TipoTransacao.deposito valor })
  else
    cc.depositar valor

/-- A requested transaction, as constructed by the glue (`Deposito(valor)` /
`Saque(valor)`); its `valor` is fixed at construction. -/
inductive Transacao
  | deposito (valor : ℚ)
  | saque (valor : ℚ)
deriving DecidableEq, Repr

/-- `Cliente.realizar_transacao(conta, transacao)`: delegates to
`transacao.registrar(conta)`, for a base account. -/
def realizarTransacao (c : Conta) (t : Transacao) : Resultado × Conta :=
  match t with
  | .deposito v => Deposito.registrar c v
  | .saque v => Saque.registrar c v

/-- `Cliente.realizar_transacao(conta, transacao)` on a `ContaCorrente`. -/
def realizarTransacaoCorrente (cc : ContaCorrente) (t : Transacao) :
    Resultado × ContaCorrente :=
  match t with
  | .deposito v => Deposito.registrarCorrente cc v
  | .saque v => Saque.registrarCorrente cc v

/-- A sequence of requested transactions executed in order against a base
account (each via the registration protocol). -/
def Conta.executar (c : Conta) : List Transacao → Conta
  | [] => c
  | t :: ts => Conta.executar (realizarTransacao c t).2 ts

/-- A sequence of requested transactions executed in order against a
checking account. -/
def ContaCorrente.executar (cc : ContaCorrente) : List Transacao → ContaCorrente
  | [] => cc
  | t :: ts => ContaCorrente.executar (realizarTransacaoCorrente cc t).2 ts

example :
    ((ContaCorrente.novaConta 1).sacar 600).1 = Resultado.acimaDoLimite := by
  decide

example :
    ((Conta.novaConta 1).depositar 100).2.saldo = 100 := by
  norm_num [Conta.depositar, Conta.novaConta]

/-! ### Auxiliary lemmas -/

lemma Conta.sacar_of_pos_le (c : Conta) (v : ℚ) (h1 : ¬ v ≤ 0)
    (h2 : ¬ v > c.saldo) :
    c.sacar v = (.ok, { c with saldo := c.saldo - v }) := by
  simp [Conta.sacar, h1, h2]

lemma Conta.sacar_fst_ne_ok (c : Conta) (v : ℚ) (h : (c.sacar v).1 ≠ .ok) :
    (c.sacar v).2 = c := by
  by_cases h1 : v ≤ 0
  · simp [Conta.sacar, h1]
  · by_cases h2 : v > c.saldo
    · simp [Conta.sacar, h1, h2]
    · exact absurd (by simp [Conta.sacar_of_pos_le c v h1 h2]) h

lemma Conta.depositar_fst_ne_ok (c : Conta) (v : ℚ)
    (h : (c.depositar v).1 ≠ .ok) : (c.depositar v).2 = c := by
  by_cases h1 : v ≤ 0
  · simp [Conta.depositar, h1]
  · exact absurd (by simp [Conta.depositar, h1]) h

lemma Conta.sacar_saldo_nonneg (c : Conta) (v : ℚ) (h : 0 ≤ c.saldo) :
    0 ≤ (c.sacar v).2.saldo := by
  by_cases h1 : v ≤ 0
  · simpa [Conta.sacar, h1] using h
  · by_cases h2 : v > c.saldo
    · simpa [Conta.sacar, h1, h2] using h
    · push_neg at h2
      simp only [Conta.sacar_of_pos_le c v h1 (by push_neg; exact h2)]
      show 0 ≤ c.saldo - v
      linarith

lemma Conta.depositar_saldo_nonneg (c : Conta) (v : ℚ) (h : 0 ≤ c.saldo) :
    0 ≤ (c.depositar v).2.saldo := by
  by_cases h1 : v ≤ 0
  · simpa [Conta.depositar, h1] using h
  · push_neg at h1
    have : (c.depositar v).2.saldo = c.saldo + v := by
      simp [Conta.depositar, not_le.mpr h1]
    rw [this]
    linarith

lemma sacarCorrente_saldo_nonneg (cc : ContaCorrente) (v : ℚ)
    (h : 0 ≤ cc.saldo) : 0 ≤ (cc.sacar v).2.saldo := by
  by_cases hL : v > cc.limite
  · simpa [ContaCorrente.sacar, hL] using h
  · by_cases hN : numeroSaques cc.historico ≥ cc.limiteSaques
    · simpa [ContaCorrente.sacar, hL, hN] using h
    · have : (cc.sacar v).2.saldo = (Conta.sacar cc.toConta v).2.saldo := by
        simp [ContaCorrente.sacar, hL, hN]
      rw [this]
      exact Conta.sacar_saldo_nonneg cc.toConta v h

lemma depositarCorrente_saldo_nonneg (cc : ContaCorrente) (v : ℚ)
    (h : 0 ≤ cc.saldo) : 0 ≤ (cc.depositar v).2.saldo := by
  have : (cc.depositar v).2.saldo = (Conta.depositar cc.toConta v).2.saldo :=
    rfl
  rw [this]
  exact Conta.depositar_saldo_nonneg cc.toConta v h

lemma saqueRegistrar_saldo (c : Conta) (v : ℚ) :
    (Saque.registrar c v).2.saldo = (c.sacar v).2.saldo := by
  unfold Saque.registrar
  split_ifs <;> rfl

lemma depositoRegistrar_saldo (c : Conta) (v : ℚ) :
    (Deposito.registrar c v).2.saldo = (c.depositar v).2.saldo := by
  unfold Deposito.registrar
  split_ifs <;> rfl

lemma saqueRegistrarCorrente_saldo (cc : ContaCorrente) (v : ℚ) :
    (Saque.registrarCorrente cc v).2.saldo = (cc.sacar v).2.saldo := by
  unfold Saque.registrarCorrente
  split_ifs <;> rfl

lemma depositoRegistrarCorrente_saldo (cc : ContaCorrente) (v : ℚ) :
    (Deposito.registrarCorrente cc v).2.saldo = (cc.depositar v).2.saldo := by
  unfold Deposito.registrarCorrente
  split_ifs <;> rfl

lemma realizarTransacao_saldo_nonneg (c : Conta) (t : Transacao)
    (h : 0 ≤ c.saldo) : 0 ≤ (realizarTransacao c t).2.saldo := by
  cases t with
  | deposito v =>
      rw [realizarTransacao, depositoRegistrar_saldo]
      exact Conta.depositar_saldo_nonneg c v h
  | saque v =>
      rw [realizarTransacao, saqueRegistrar_saldo]
      exact Conta.sacar_saldo_nonneg c v h

lemma realizarTransacaoCorrente_saldo_nonneg (cc : ContaCorrente)
    (t : Transacao) (h : 0 ≤ cc.saldo) :
    0 ≤ (realizarTransacaoCorrente cc t).2.saldo := by
  cases t with
  | deposito v =>
      rw [realizarTransacaoCorrente, depositoRegistrarCorrente_saldo]
      exact depositarCorrente_saldo_nonneg cc v h
  | saque v =>
      rw [realizarTransacaoCorrente, saqueRegistrarCorrente_saldo]
      exact sacarCorrente_saldo_nonneg cc v h

lemma Conta.executar_saldo_nonneg (ts : List Transacao) :
    ∀ (c : Conta), 0 ≤ c.saldo → 0 ≤ (c.executar ts).saldo := by
  induction ts with
  | nil => intro c h; exact h
  | cons t ts ih =>
      intro c h
      exact ih _ (realizarTransacao_saldo_nonneg c t h)

lemma executarCorrente_saldo_nonneg (ts : List Transacao) :
    ∀ (cc : ContaCorrente), 0 ≤ cc.saldo → 0 ≤ (cc.executar ts).saldo := by
  induction ts with
  | nil => intro cc h; exact h
  | cons t ts ih =>
      intro cc h
      exact ih _ (realizarTransacaoCorrente_saldo_nonneg cc t h)

/-! ### Claim theorems -/

/-- **C1.** For every sequence of deposit/withdraw transactions executed
from a freshly created account (initial balance `0`), base or checking, the
balance never goes below zero (every prefix of a sequence being itself a
sequence, this covers every intermediate state); moreover on any account
state a withdrawal whose amount exceeds the current balance fails without
mutation, so no operation can drive the balance negative. -/
theorem saldo_nunca_negativo (numero : Nat) (ts : List Transacao) :
    0 ≤ ((Conta.novaConta numero).executar ts).saldo ∧
    0 ≤ ((ContaCorrente.novaConta numero).executar ts).saldo ∧
    (∀ (c : Conta) (v : ℚ), c.saldo < v →
      (c.sacar v).1 ≠ .ok ∧ (c.sacar v).2 = c) ∧
    (∀ (cc : ContaCorrente) (v : ℚ), cc.saldo < v →
      (cc.sacar v).1 ≠ .ok ∧ (cc.sacar v).2 = cc) := by
  refine ⟨Conta.executar_saldo_nonneg ts _ le_rfl,
    executarCorrente_saldo_nonneg ts _ le_rfl, ?_, ?_⟩
  · intro c v hv
    by_cases h1 : v ≤ 0
    · constructor <;> simp [Conta.sacar, h1]
    · have h2 : v > c.saldo := hv
      constructor <;> simp [Conta.sacar, h1, h2]
  · intro cc v hv
    by_cases hL : v > cc.limite
    · constructor <;> simp [ContaCorrente.sacar, hL]
    · by_cases hN : numeroSaques cc.historico ≥ cc.limiteSaques
      · constructor <;> simp [ContaCorrente.sacar, hL, hN]
      · by_cases h1 : v ≤ 0
        · constructor <;> simp [ContaCorrente.sacar, Conta.sacar, hL, hN, h1]
        · have h2 : v > cc.toConta.saldo := hv
          constructor <;>
            simp [ContaCorrente.sacar, Conta.sacar, hL, hN, h1, h2]

/-- Witness for C1 at concrete inputs. -/
theorem saldo_nunca_negativo_aplicado :
    0 ≤ ((Conta.novaConta 1).executar
          [Transacao.deposito 100, Transacao.saque 30]).saldo ∧
    ((Conta.novaConta 1).sacar 30).1 ≠ .ok ∧
    ((Conta.novaConta 1).sacar 30).2 = Conta.novaConta 1 := by
  refine ⟨(saldo_nunca_negativo 1
      [Transacao.deposito 100, Transacao.saque 30]).1, ?_, ?_⟩
  · exact ((saldo_nunca_negativo 1 []).2.2.1 (Conta.novaConta 1) 30
      (by norm_num [Conta.novaConta])).1
  · exact ((saldo_nunca_negativo 1 []).2.2.1 (Conta.novaConta 1) 30
      (by norm_num [Conta.novaConta])).2

/-! ### Lemmas about the registration protocol -/

lemma saqueRegistrar_fst (c : Conta) (v : ℚ) :
    (Saque.registrar c v).1 = (c.sacar v).1 := by
  unfold Saque.registrar
  split_ifs <;> rfl

lemma depositoRegistrar_fst (c : Conta) (v : ℚ) :
    (Deposito.registrar c v).1 = (c.depositar v).1 := by
  unfold Deposito.registrar
  split_ifs <;> rfl

lemma saqueRegistrarCorrente_fst (cc : ContaCorrente) (v : ℚ) :
    (Saque.registrarCorrente cc v).1 = (cc.sacar v).1 := by
  unfold Saque.registrarCorrente
  split_ifs <;> rfl

lemma depositoRegistrarCorrente_fst (cc : ContaCorrente) (v : ℚ) :
    (Deposito.registrarCorrente cc v).1 = (cc.depositar v).1 := by
  unfold Deposito.registrarCorrente
  split_ifs <;> rfl

lemma saqueRegistrar_of_ne_ok (c : Conta) (v : ℚ)
    (h : (c.sacar v).1 ≠ .ok) : Saque.registrar c v = c.sacar v := by
  simp [Saque.registrar, h]

lemma depositoRegistrar_of_ne_ok (c : Conta) (v : ℚ)
    (h : (c.depositar v).1 ≠ .ok) : Deposito.registrar c v = c.depositar v := by
  simp [Deposito.registrar, h]

lemma saqueRegistrarCorrente_of_ne_ok (cc : ContaCorrente) (v : ℚ)
    (h : (cc.sacar v).1 ≠ .ok) : Saque.registrarCorrente cc v = cc.sacar v := by
  simp [Saque.registrarCorrente, h]

lemma depositoRegistrarCorrente_of_ne_ok (cc : ContaCorrente) (v : ℚ)
    (h : (cc.depositar v).1 ≠ .ok) :
    Deposito.registrarCorrente cc v = cc.depositar v := by
  simp [Deposito.registrarCorrente, h]

lemma ContaCorrente.sacar_fst (cc : ContaCorrente) (v : ℚ)
    (hL : ¬ v > cc.limite) (hN : ¬ numeroSaques cc.historico ≥ cc.limiteSaques) :
    (cc.sacar v).1 = (Conta.sacar cc.toConta v).1 := by
  simp [ContaCorrente.sacar, hL, hN]

lemma ContaCorrente.sacar_snd_ne_ok (cc : ContaCorrente) (v : ℚ)
    (h : (cc.sacar v).1 ≠ .ok) : (cc.sacar v).2 = cc := by
  by_cases hL : v > cc.limite
  · simp [ContaCorrente.sacar, hL]
  · by_cases hN : numeroSaques cc.historico ≥ cc.limiteSaques
    · simp [ContaCorrente.sacar, hL, hN]
    · have hbase : (Conta.sacar cc.toConta v).1 ≠ .ok := by
        rw [← ContaCorrente.sacar_fst cc v hL hN]
        exact h
      have h2 := Conta.sacar_fst_ne_ok cc.toConta v hbase
      simp [ContaCorrente.sacar, hL, hN, h2]

lemma ContaCorrente.depositar_snd_ne_ok (cc : ContaCorrente) (v : ℚ)
    (h : (cc.depositar v).1 ≠ .ok) : (cc.depositar v).2 = cc := by
  have hbase : (Conta.depositar cc.toConta v).1 ≠ .ok := h
  have h2 := Conta.depositar_fst_ne_ok cc.toConta v hbase
  simp [ContaCorrente.depositar, h2]

lemma saqueRegistrar_snd_ne_ok (c : Conta) (v : ℚ)
    (h : (Saque.registrar c v).1 ≠ .ok) : (Saque.registrar c v).2 = c := by
  rw [saqueRegistrar_fst] at h
  rw [saqueRegistrar_of_ne_ok c v h]
  exact Conta.sacar_fst_ne_ok c v h

lemma depositoRegistrar_snd_ne_ok (c : Conta) (v : ℚ)
    (h : (Deposito.registrar c v).1 ≠ .ok) : (Deposito.registrar c v).2 = c := by
  rw [depositoRegistrar_fst] at h
  rw [depositoRegistrar_of_ne_ok c v h]
  exact Conta.depositar_fst_ne_ok c v h

lemma saqueRegistrarCorrente_snd_ne_ok (cc : ContaCorrente) (v : ℚ)
    (h : (Saque.registrarCorrente cc v).1 ≠ .ok) :
    (Saque.registrarCorrente cc v).2 = cc := by
  rw [saqueRegistrarCorrente_fst] at h
  rw [saqueRegistrarCorrente_of_ne_ok cc v h]
  exact ContaCorrente.sacar_snd_ne_ok cc v h

lemma depositoRegistrarCorrente_snd_ne_ok (cc : ContaCorrente) (v : ℚ)
    (h : (Deposito.registrarCorrente cc v).1 ≠ .ok) :
    (Deposito.registrarCorrente cc v).2 = cc := by
  rw [depositoRegistrarCorrente_fst] at h
  rw [depositoRegistrarCorrente_of_ne_ok cc v h]
  exact ContaCorrente.depositar_snd_ne_ok cc v h

lemma saqueRegistrar_of_ok (c : Conta) (v : ℚ) (h1 : ¬ v ≤ 0)
    (h2 : ¬ v > c.saldo) :
    Saque.registrar c v =
      (.ok, { c with saldo := c.saldo - v,
                     historico := c.historico ++ [⟨.saque, v⟩] }) := by
  simp [Saque.registrar, Conta.sacar, h1, h2, Historico.adicionarTransacao]

lemma depositoRegistrar_of_ok (c : Conta) (v : ℚ) (h1 : ¬ v ≤ 0) :
    Deposito.registrar c v =
      (.ok, { c with saldo := c.saldo + v,
                     historico := c.historico ++ [⟨.deposito, v⟩] }) := by
  simp [Deposito.registrar, Conta.depositar, h1, Historico.adicionarTransacao]

lemma saqueRegistrarCorrente_of_ok (cc : ContaCorrente) (v : ℚ)
    (hL : ¬ v > cc.limite) (hN : ¬ numeroSaques cc.historico ≥ cc.limiteSaques)
    (h1 : ¬ v ≤ 0) (h2 : ¬ v > cc.saldo) :
    Saque.registrarCorrente cc v =
      (.ok, { cc with saldo := cc.saldo - v,
                      historico := cc.historico ++ [⟨.saque, v⟩] }) := by
  simp [Saque.registrarCorrente, ContaCorrente.sacar, Conta.sacar, hL, hN,
    h1, h2, Historico.adicionarTransacao]

lemma depositoRegistrarCorrente_of_ok (cc : ContaCorrente) (v : ℚ)
    (h1 : ¬ v ≤ 0) :
    Deposito.registrarCorrente cc v =
      (.ok, { cc with saldo := cc.saldo + v,
                      historico := cc.historico ++ [⟨.deposito, v⟩] }) := by
  simp [Deposito.registrarCorrente, ContaCorrente.depositar, Conta.depositar,
    h1, Historico.adicionarTransacao]

lemma Conta.sacar_ok_conds (c : Conta) (v : ℚ) (hok : (c.sacar v).1 = .ok) :
    ¬ v ≤ 0 ∧ ¬ v > c.saldo := by
  by_cases h1 : v ≤ 0
  · exact absurd hok (by simp [Conta.sacar, h1])
  · by_cases h2 : v > c.saldo
    · exact absurd hok (by simp [Conta.sacar, h1, h2])
    · exact ⟨h1, h2⟩

lemma sacarCorrente_ok_conds (cc : ContaCorrente) (v : ℚ)
    (hok : (cc.sacar v).1 = .ok) :
    ¬ v > cc.limite ∧ ¬ numeroSaques cc.historico ≥ cc.limiteSaques ∧
      ¬ v ≤ 0 ∧ ¬ v > cc.saldo := by
  by_cases hL : v > cc.limite
  · exact absurd hok (by simp [ContaCorrente.sacar, hL])
  · by_cases hN : numeroSaques cc.historico ≥ cc.limiteSaques
    · exact absurd hok (by simp [ContaCorrente.sacar, hL, hN])
    · have hbase : (Conta.sacar cc.toConta v).1 = .ok := by
        rw [← ContaCorrente.sacar_fst cc v hL hN]
        exact hok
      exact ⟨hL, hN, (Conta.sacar_ok_conds cc.toConta v hbase).1,
        (Conta.sacar_ok_conds cc.toConta v hbase).2⟩

/-- **C2.** On every account state (base or checking) and every amount, a
withdrawal registered through `Saque.registrar` appends a withdrawal record
to the history if and only if the balance actually decreased by that amount;
on any failed withdrawal attempt neither balance nor history (nor any other
field) changes. -/
theorem saque_atomico_com_historico (c : Conta) (cc : ContaCorrente) (v : ℚ) :
    ((Saque.registrar c v).2.historico = c.historico ++ [⟨.saque, v⟩] ↔
      (Saque.registrar c v).2.saldo = c.saldo - v ∧ 0 < v) ∧
    ((Saque.registrar c v).1 ≠ .ok → (Saque.registrar c v).2 = c) ∧
    ((Saque.registrarCorrente cc v).2.historico
        = cc.historico ++ [⟨.saque, v⟩] ↔
      (Saque.registrarCorrente cc v).2.saldo = cc.saldo - v ∧ 0 < v) ∧
    ((Saque.registrarCorrente cc v).1 ≠ .ok →
      (Saque.registrarCorrente cc v).2 = cc) := by
  refine ⟨?_, fun h => saqueRegistrar_snd_ne_ok c v h, ?_,
    fun h => saqueRegistrarCorrente_snd_ne_ok cc v h⟩
  · by_cases hok : (c.sacar v).1 = .ok
    · obtain ⟨h1, h2⟩ := Conta.sacar_ok_conds c v hok
      rw [saqueRegistrar_of_ok c v h1 h2]
      exact ⟨fun _ => ⟨rfl, not_le.mp h1⟩, fun _ => rfl⟩
    · have hne : (Saque.registrar c v).1 ≠ .ok := by
        rw [saqueRegistrar_fst]; exact hok
      rw [saqueRegistrar_snd_ne_ok c v hne]
      constructor
      · intro hlist
        exact absurd (congrArg List.length hlist) (by simp)
      · rintro ⟨hs, hv⟩
        exfalso
        have : v = 0 := by linarith [hs]
        linarith
  · by_cases hok : (cc.sacar v).1 = .ok
    · obtain ⟨hL, hN, h1, h2⟩ := sacarCorrente_ok_conds cc v hok
      rw [saqueRegistrarCorrente_of_ok cc v hL hN h1 h2]
      exact ⟨fun _ => ⟨rfl, not_le.mp h1⟩, fun _ => rfl⟩
    · have hne : (Saque.registrarCorrente cc v).1 ≠ .ok := by
        rw [saqueRegistrarCorrente_fst]; exact hok
      rw [saqueRegistrarCorrente_snd_ne_ok cc v hne]
      constructor
      · intro hlist
        exact absurd (congrArg List.length hlist) (by simp)
      · rintro ⟨hs, hv⟩
        exfalso
        have : v = 0 := by linarith [hs]
        linarith

/-- Witness for C2 at concrete inputs. -/
theorem saque_atomico_com_historico_aplicado :
    (Saque.registrar (Conta.novaConta 1) 30).2 = Conta.novaConta 1 ∧
    (Saque.registrarCorrente (ContaCorrente.novaConta 1) 30).2
      = ContaCorrente.novaConta 1 := by
  refine ⟨(saque_atomico_com_historico (Conta.novaConta 1)
      (ContaCorrente.novaConta 1) 30).2.1 ?_,
    (saque_atomico_com_historico (Conta.novaConta 1)
      (ContaCorrente.novaConta 1) 30).2.2.2 ?_⟩
  · rw [saqueRegistrar_fst]
    norm_num [Conta.sacar, Conta.novaConta]
    decide
  · rw [saqueRegistrarCorrente_fst]
    norm_num [ContaCorrente.sacar, Conta.sacar, ContaCorrente.novaConta,
      Conta.novaConta, numeroSaques]
    decide

lemma numeroSaques_nil : numeroSaques [] = 0 := rfl

lemma numeroSaques_cons_deposito (h : List Registro) (v : ℚ) :
    numeroSaques (⟨.deposito, v⟩ :: h) = numeroSaques h := rfl

lemma numeroSaques_cons_saque (h : List Registro) (v : ℚ) :
    numeroSaques (⟨.saque, v⟩ :: h) = numeroSaques h + 1 := rfl

lemma numeroSaques_append (h₁ h₂ : List Registro) :
    numeroSaques (h₁ ++ h₂) = numeroSaques h₁ + numeroSaques h₂ := by
  simp [numeroSaques, List.filter_append]

/-- A concrete checking account whose history already holds exactly the
maximum number (3) of withdrawal records, with ample balance. -/
def contaNoLimiteDeSaques : ContaCorrente :=
  { saldo := 1000
    numero := 1
    agencia := "0001"
    historico := [⟨.saque, 10⟩, ⟨.saque, 10⟩, ⟨.saque, 10⟩]
    limite := 500
    limiteSaques := 3 }

/-- **C3 (counterexample).** A checking account whose history holds exactly
the maximum number (3) of withdrawal records, with ample balance, rejects a
withdrawal of 600 with `acimaDoLimite` (LimitExceeded), not
`maxSaquesAtingido` (MaxWithdrawalsReached): the ceiling gate is evaluated
first, so the claim "fails with MaxWithdrawalsReached for every amount and
every balance" is false at this input. -/
theorem saques_no_maximo_contraexemplo :
    numeroSaques contaNoLimiteDeSaques.historico
      = contaNoLimiteDeSaques.limiteSaques ∧
    (contaNoLimiteDeSaques.sacar 600).1 ≠ Resultado.maxSaquesAtingido ∧
    (contaNoLimiteDeSaques.sacar 600).1 = Resultado.acimaDoLimite := by
  refine ⟨rfl, ?_, ?_⟩ <;>
    simp [contaNoLimiteDeSaques, ContaCorrente.sacar,
      show (500:ℚ) < 600 by norm_num]

/-- **C3 (amended).** For every checking account whose history contains
exactly `limiteSaques` withdrawal records, every further withdrawal attempt
fails — with `maxSaquesAtingido` whenever the amount does not exceed the
ceiling (amounts above the ceiling fail with the ceiling error instead,
since that gate is evaluated first) — the account is not mutated, and a
withdrawal attempt rejected by any gate is never recorded, so it cannot
increase the count toward the maximum. -/
theorem saques_no_maximo (cc : ContaCorrente) (v : ℚ)
    (hcap : numeroSaques cc.historico = cc.limiteSaques) :
    (cc.sacar v).1 ≠ .ok ∧
    (v ≤ cc.limite → (cc.sacar v).1 = .maxSaquesAtingido) ∧
    (cc.sacar v).2 = cc ∧
    Saque.registrarCorrente cc v = cc.sacar v ∧
    (∀ (cc' : ContaCorrente) (w : ℚ),
      (Saque.registrarCorrente cc' w).1 ≠ .ok →
        (Saque.registrarCorrente cc' w).2.historico = cc'.historico) := by
  have hN : numeroSaques cc.historico ≥ cc.limiteSaques := le_of_eq hcap.symm
  have hfst : (cc.sacar v).1 ≠ .ok := by
    by_cases hL : v > cc.limite
    · simp [ContaCorrente.sacar, hL]
    · simp [ContaCorrente.sacar, hL, hN]
  refine ⟨hfst, ?_, ContaCorrente.sacar_snd_ne_ok cc v hfst, ?_, ?_⟩
  · intro hle
    have hL : ¬ v > cc.limite := not_lt.mpr hle
    simp [ContaCorrente.sacar, hL, hN]
  · exact saqueRegistrarCorrente_of_ne_ok cc v hfst
  · intro cc' w hw
    rw [saqueRegistrarCorrente_snd_ne_ok cc' w hw]

/-- Witness for the amended C3 at concrete inputs. -/
theorem saques_no_maximo_aplicado :
    (contaNoLimiteDeSaques.sacar 50).1 = Resultado.maxSaquesAtingido ∧
    (contaNoLimiteDeSaques.sacar 50).2 = contaNoLimiteDeSaques := by
  refine ⟨(saques_no_maximo contaNoLimiteDeSaques 50 rfl).2.1 ?_,
    (saques_no_maximo contaNoLimiteDeSaques 50 rfl).2.2.1⟩
  show (50:ℚ) ≤ 500
  norm_num

/-- **C4.** For every checking account and every withdrawal amount strictly
above the ceiling `limite`, `sacar` fails with `acimaDoLimite`
(LimitExceeded) and leaves the account unchanged, whatever the balance and
the withdrawal count (so the ceiling gate precedes both the count gate and
the base balance check), and registering such a withdrawal through
`Saque.registrar` leaves balance and history unchanged. -/
theorem saque_acima_do_limite (cc : ContaCorrente) (v : ℚ)
    (h : v > cc.limite) :
    cc.sacar v = (.acimaDoLimite, cc) ∧
    Saque.registrarCorrente cc v = (.acimaDoLimite, cc) := by
  have h1 : cc.sacar v = (.acimaDoLimite, cc) := by
    simp [ContaCorrente.sacar, h]
  refine ⟨h1, ?_⟩
  rw [saqueRegistrarCorrente_of_ne_ok cc v (by rw [h1]; simp), h1]

/-- Witness for C4 at a concrete input: balance 1000 is ample and the
withdrawal count is already at the cap, yet 600 > 500 fails with the
ceiling error. -/
theorem saque_acima_do_limite_aplicado :
    contaNoLimiteDeSaques.sacar 600
      = (Resultado.acimaDoLimite, contaNoLimiteDeSaques) := by
  refine (saque_acima_do_limite contaNoLimiteDeSaques 600 ?_).1
  show (500:ℚ) < 600
  norm_num

/-- Step 1 of the spec's concrete scenario: deposit(100) registered on a
new checking account. -/
def cenarioPasso1 : Resultado × ContaCorrente :=
  Deposito.registrarCorrente (ContaCorrente.novaConta 1) 100

/-- Step 2: withdraw(50). -/
def cenarioPasso2 : Resultado × ContaCorrente :=
  Saque.registrarCorrente cenarioPasso1.2 50

/-- Step 3: withdraw(600). -/
def cenarioPasso3 : Resultado × ContaCorrente :=
  Saque.registrarCorrente cenarioPasso2.2 600

/-- Step 4: first of the three further withdraw(50) calls. -/
def cenarioPasso4 : Resultado × ContaCorrente :=
  Saque.registrarCorrente cenarioPasso3.2 50

/-- Step 5: second of the three further withdraw(50) calls. -/
def cenarioPasso5 : Resultado × ContaCorrente :=
  Saque.registrarCorrente cenarioPasso4.2 50

/-- Step 6: third of the three further withdraw(50) calls. -/
def cenarioPasso6 : Resultado × ContaCorrente :=
  Saque.registrarCorrente cenarioPasso5.2 50

/-- Step 7: the final withdraw(1). -/
def cenarioPasso7 : Resultado × ContaCorrente :=
  Saque.registrarCorrente cenarioPasso6.2 1

/-- **C5 (counterexample).** Running the spec's concrete scenario on a new
checking account — deposit(100), withdraw(50), withdraw(600) (rejected by
the ceiling), then the "three further withdraw(50) calls" — the second of
those three further calls fails with `saldoInsuficiente` (the balance is
already 0 after the first), so they do not all succeed as claimed. -/
theorem cenario_concreto_contraexemplo :
    cenarioPasso5.1 = Resultado.saldoInsuficiente ∧
    cenarioPasso5.1 ≠ Resultado.ok := by
  norm_num [cenarioPasso1, cenarioPasso2, cenarioPasso3, cenarioPasso4,
    cenarioPasso5, cenarioPasso6, cenarioPasso7,
    Deposito.registrarCorrente, Saque.registrarCorrente,
    ContaCorrente.depositar, ContaCorrente.sacar, Conta.depositar,
    Conta.sacar, ContaCorrente.novaConta, Conta.novaConta,
    Historico.adicionarTransacao, numeroSaques_nil,
    numeroSaques_cons_deposito, numeroSaques_cons_saque,
    numeroSaques_append] <;>
  simp [cenarioPasso1, cenarioPasso2, cenarioPasso3, cenarioPasso4,
    cenarioPasso5, cenarioPasso6, cenarioPasso7,
    Deposito.registrarCorrente, Saque.registrarCorrente,
    ContaCorrente.depositar, ContaCorrente.sacar, Conta.depositar,
    Conta.sacar, ContaCorrente.novaConta, Conta.novaConta,
    Historico.adicionarTransacao, numeroSaques_nil,
    numeroSaques_cons_deposito, numeroSaques_cons_saque,
    numeroSaques_append] <;>
  norm_num [cenarioPasso1, cenarioPasso2, cenarioPasso3, cenarioPasso4,
    cenarioPasso5, cenarioPasso6, cenarioPasso7,
    Deposito.registrarCorrente, Saque.registrarCorrente,
    ContaCorrente.depositar, ContaCorrente.sacar, Conta.depositar,
    Conta.sacar, ContaCorrente.novaConta, Conta.novaConta,
    Historico.adicionarTransacao, numeroSaques_nil,
    numeroSaques_cons_deposito, numeroSaques_cons_saque,
    numeroSaques_append] <;>
  simp [cenarioPasso1, cenarioPasso2, cenarioPasso3, cenarioPasso4,
    cenarioPasso5, cenarioPasso6, cenarioPasso7,
    Deposito.registrarCorrente, Saque.registrarCorrente,
    ContaCorrente.depositar, ContaCorrente.sacar, Conta.depositar,
    Conta.sacar, ContaCorrente.novaConta, Conta.novaConta,
    Historico.adicionarTransacao, numeroSaques_nil,
    numeroSaques_cons_deposito, numeroSaques_cons_saque,
    numeroSaques_append] <;>
  norm_num [cenarioPasso1, cenarioPasso2, cenarioPasso3, cenarioPasso4,
    cenarioPasso5, cenarioPasso6, cenarioPasso7,
    Deposito.registrarCorrente, Saque.registrarCorrente,
    ContaCorrente.depositar, ContaCorrente.sacar, Conta.depositar,
    Conta.sacar, ContaCorrente.novaConta, Conta.novaConta,
    Historico.adicionarTransacao, numeroSaques_nil,
    numeroSaques_cons_deposito, numeroSaques_cons_saque,
    numeroSaques_append] <;>
  simp [cenarioPasso1, cenarioPasso2, cenarioPasso3, cenarioPasso4,
    cenarioPasso5, cenarioPasso6, cenarioPasso7,
    Deposito.registrarCorrente, Saque.registrarCorrente,
    ContaCorrente.depositar, ContaCorrente.sacar, Conta.depositar,
    Conta.sacar, ContaCorrente.novaConta, Conta.novaConta,
    Historico.adicionarTransacao, numeroSaques_nil,
    numeroSaques_cons_deposito, numeroSaques_cons_saque,
    numeroSaques_append] <;>
  norm_num [cenarioPasso1, cenarioPasso2, cenarioPasso3, cenarioPasso4,
    cenarioPasso5, cenarioPasso6, cenarioPasso7,
    Deposito.registrarCorrente, Saque.registrarCorrente,
    ContaCorrente.depositar, ContaCorrente.sacar, Conta.depositar,
    Conta.sacar, ContaCorrente.novaConta, Conta.novaConta,
    Historico.adicionarTransacao, numeroSaques_nil,
    numeroSaques_cons_deposito, numeroSaques_cons_saque,
    numeroSaques_append] <;>
  simp [cenarioPasso1, cenarioPasso2, cenarioPasso3, cenarioPasso4,
    cenarioPasso5, cenarioPasso6, cenarioPasso7,
    Deposito.registrarCorrente, Saque.registrarCorrente,
    ContaCorrente.depositar, ContaCorrente.sacar, Conta.depositar,
    Conta.sacar, ContaCorrente.novaConta, Conta.novaConta,
    Historico.adicionarTransacao, numeroSaques_nil,
    numeroSaques_cons_deposito, numeroSaques_cons_saque,
    numeroSaques_append]

/-- **C5 (amended).** The actual trace of the scenario on a new checking
account (balance 0): deposit(100) succeeds, balance 100, history
[Deposit 100]; withdraw(50) succeeds, balance 50, history
[Deposit 100, Withdrawal 50]; withdraw(600) fails with `acimaDoLimite`,
state unchanged; of the three further withdraw(50) calls only the first
succeeds (balance 0, two withdrawals recorded) and the next two fail with
`saldoInsuficiente`, state unchanged; the subsequent withdraw(1) also fails
with `saldoInsuficiente` (only 2 successful withdrawals are recorded, so
the max-withdrawals gate is not the one that fires). -/
theorem cenario_concreto :
    cenarioPasso1.1 = Resultado.ok ∧ cenarioPasso1.2.saldo = 100 ∧
      cenarioPasso1.2.historico = [⟨.deposito, 100⟩] ∧
    cenarioPasso2.1 = Resultado.ok ∧ cenarioPasso2.2.saldo = 50 ∧
      cenarioPasso2.2.historico = [⟨.deposito, 100⟩, ⟨.saque, 50⟩] ∧
    cenarioPasso3.1 = Resultado.acimaDoLimite ∧
      cenarioPasso3.2 = cenarioPasso2.2 ∧
    cenarioPasso4.1 = Resultado.ok ∧ cenarioPasso4.2.saldo = 0 ∧
      cenarioPasso4.2.historico
        = [⟨.deposito, 100⟩, ⟨.saque, 50⟩, ⟨.saque, 50⟩] ∧
    cenarioPasso5.1 = Resultado.saldoInsuficiente ∧
      cenarioPasso5.2 = cenarioPasso4.2 ∧
    cenarioPasso6.1 = Resultado.saldoInsuficiente ∧
      cenarioPasso6.2 = cenarioPasso4.2 ∧
    cenarioPasso7.1 = Resultado.saldoInsuficiente ∧
      cenarioPasso7.2 = cenarioPasso4.2 := by
  norm_num [cenarioPasso1, cenarioPasso2, cenarioPasso3, cenarioPasso4,
    cenarioPasso5, cenarioPasso6, cenarioPasso7,
    Deposito.registrarCorrente, Saque.registrarCorrente,
    ContaCorrente.depositar, ContaCorrente.sacar, Conta.depositar,
    Conta.sacar, ContaCorrente.novaConta, Conta.novaConta,
    Historico.adicionarTransacao, numeroSaques_nil,
    numeroSaques_cons_deposito, numeroSaques_cons_saque,
    numeroSaques_append] <;>
  simp [cenarioPasso1, cenarioPasso2, cenarioPasso3, cenarioPasso4,
    cenarioPasso5, cenarioPasso6, cenarioPasso7,
    Deposito.registrarCorrente, Saque.registrarCorrente,
    ContaCorrente.depositar, ContaCorrente.sacar, Conta.depositar,
    Conta.sacar, ContaCorrente.novaConta, Conta.novaConta,
    Historico.adicionarTransacao, numeroSaques_nil,
    numeroSaques_cons_deposito, numeroSaques_cons_saque,
    numeroSaques_append] <;>
  norm_num [cenarioPasso1, cenarioPasso2, cenarioPasso3, cenarioPasso4,
    cenarioPasso5, cenarioPasso6, cenarioPasso7,
    Deposito.registrarCorrente, Saque.registrarCorrente,
    ContaCorrente.depositar, ContaCorrente.sacar, Conta.depositar,
    Conta.sacar, ContaCorrente.novaConta, Conta.novaConta,
    Historico.adicionarTransacao, numeroSaques_nil,
    numeroSaques_cons_deposito, numeroSaques_cons_saque,
    numeroSaques_append] <;>
  simp [cenarioPasso1, cenarioPasso2, cenarioPasso3, cenarioPasso4,
    cenarioPasso5, cenarioPasso6, cenarioPasso7,
    Deposito.registrarCorrente, Saque.registrarCorrente,
    ContaCorrente.depositar, ContaCorrente.sacar, Conta.depositar,
    Conta.sacar, ContaCorrente.novaConta, Conta.novaConta,
    Historico.adicionarTransacao, numeroSaques_nil,
    numeroSaques_cons_deposito, numeroSaques_cons_saque,
    numeroSaques_append] <;>
  norm_num [cenarioPasso1, cenarioPasso2, cenarioPasso3, cenarioPasso4,
    cenarioPasso5, cenarioPasso6, cenarioPasso7,
    Deposito.registrarCorrente, Saque.registrarCorrente,
    ContaCorrente.depositar, ContaCorrente.sacar, Conta.depositar,
    Conta.sacar, ContaCorrente.novaConta, Conta.novaConta,
    Historico.adicionarTransacao, numeroSaques_nil,
    numeroSaques_cons_deposito, numeroSaques_cons_saque,
    numeroSaques_append] <;>
  simp [cenarioPasso1, cenarioPasso2, cenarioPasso3, cenarioPasso4,
    cenarioPasso5, cenarioPasso6, cenarioPasso7,
    Deposito.registrarCorrente, Saque.registrarCorrente,
    ContaCorrente.depositar, ContaCorrente.sacar, Conta.depositar,
    Conta.sacar, ContaCorrente.novaConta, Conta.novaConta,
    Historico.adicionarTransacao, numeroSaques_nil,
    numeroSaques_cons_deposito, numeroSaques_cons_saque,
    numeroSaques_append] <;>
  norm_num [cenarioPasso1, cenarioPasso2, cenarioPasso3, cenarioPasso4,
    cenarioPasso5, cenarioPasso6, cenarioPasso7,
    Deposito.registrarCorrente, Saque.registrarCorrente,
    ContaCorrente.depositar, ContaCorrente.sacar, Conta.depositar,
    Conta.sacar, ContaCorrente.novaConta, Conta.novaConta,
    Historico.adicionarTransacao, numeroSaques_nil,
    numeroSaques_cons_deposito, numeroSaques_cons_saque,
    numeroSaques_append] <;>
  simp [cenarioPasso1, cenarioPasso2, cenarioPasso3, cenarioPasso4,
    cenarioPasso5, cenarioPasso6, cenarioPasso7,
    Deposito.registrarCorrente, Saque.registrarCorrente,
    ContaCorrente.depositar, ContaCorrente.sacar, Conta.depositar,
    Conta.sacar, ContaCorrente.novaConta, Conta.novaConta,
    Historico.adicionarTransacao, numeroSaques_nil,
    numeroSaques_cons_deposito, numeroSaques_cons_saque,
    numeroSaques_append]

lemma Conta.depositar_ok_conds (c : Conta) (v : ℚ)
    (hok : (c.depositar v).1 = .ok) : ¬ v ≤ 0 := by
  by_cases h1 : v ≤ 0
  · exact absurd hok (by simp [Conta.depositar, h1])
  · exact h1

/-- **C6.** For every account (base or checking) and every amount `a`:
depositing `a > 0` succeeds and increases the balance by exactly `a`
(appending one deposit record when registered); depositing `a ≤ 0` reports
`valorInvalido` and leaves balance and history (the whole state) unchanged. -/
theorem deposito_monotonico (c : Conta) (cc : ContaCorrente) (a : ℚ) :
    (0 < a →
      c.depositar a = (.ok, { c with saldo := c.saldo + a }) ∧
      Deposito.registrar c a = (.ok, { c with saldo := c.saldo + a, historico := c.historico ++ [⟨.deposito, a⟩] }) ∧
      cc.depositar a = (.ok, { cc with saldo := cc.saldo + a }) ∧
      Deposito.registrarCorrente cc a = (.ok, { cc with saldo := cc.saldo + a, historico := cc.historico ++ [⟨.deposito, a⟩] })) ∧
    (a ≤ 0 →
      c.depositar a = (.valorInvalido, c) ∧
      Deposito.registrar c a = (.valorInvalido, c) ∧
      cc.depositar a = (.valorInvalido, cc) ∧
      Deposito.registrarCorrente cc a = (.valorInvalido, cc)) := by
  constructor
  · intro ha
    have h1 : ¬ a ≤ 0 := not_le.mpr ha
    exact ⟨by simp [Conta.depositar, h1], depositoRegistrar_of_ok c a h1,
      by simp [ContaCorrente.depositar, Conta.depositar, h1],
      depositoRegistrarCorrente_of_ok cc a h1⟩
  · intro ha
    refine ⟨by simp [Conta.depositar, ha], ?_, ?_, ?_⟩
    · rw [depositoRegistrar_of_ne_ok c a (by simp [Conta.depositar, ha])]
      simp [Conta.depositar, ha]
    · simp [ContaCorrente.depositar, Conta.depositar, ha]
    · rw [depositoRegistrarCorrente_of_ne_ok cc a
        (by simp [ContaCorrente.depositar, Conta.depositar, ha])]
      simp [ContaCorrente.depositar, Conta.depositar, ha]

/-- Witness for C6 at concrete inputs. -/
theorem deposito_monotonico_aplicado :
    Conta.depositar (Conta.novaConta 1) 100
      = (.ok, { Conta.novaConta 1 with saldo := (Conta.novaConta 1).saldo + 100 }) ∧
    Conta.depositar (Conta.novaConta 1) (-5)
      = (.valorInvalido, Conta.novaConta 1) := by
  exact ⟨((deposito_monotonico (Conta.novaConta 1) (ContaCorrente.novaConta 1)
      100).1 (by norm_num)).1,
    ((deposito_monotonico (Conta.novaConta 1) (ContaCorrente.novaConta 1)
      (-5)).2 (by norm_num)).1⟩

/-- **C7.** On every base-account state, `sacar` checks its preconditions
in order: a non-positive amount fails first with `valorInvalido`; otherwise
an amount exceeding the current balance fails with `saldoInsuficiente`;
otherwise the balance decreases by exactly the amount and the call reports
success; on either failure the state is unchanged (the failing pairs carry
`c` itself). -/
theorem saque_base_precondicoes (c : Conta) (v : ℚ) :
    (v ≤ 0 → c.sacar v = (.valorInvalido, c)) ∧
    (¬ v ≤ 0 → v > c.saldo → c.sacar v = (.saldoInsuficiente, c)) ∧
    (¬ v ≤ 0 → ¬ v > c.saldo →
      c.sacar v = (.ok, { c with saldo := c.saldo - v })) := by
  refine ⟨fun h1 => by simp [Conta.sacar, h1],
    fun h1 h2 => by simp [Conta.sacar, h1, h2],
    fun h1 h2 => by simp [Conta.sacar, h1, h2]⟩

/-- A concrete base account with balance 10 and empty history. -/
def contaComSaldoDez : Conta :=
  { saldo := 10, numero := 2, agencia := "0001", historico := [] }

/-- Witness for C7 at concrete inputs: the three branches each fire. -/
theorem saque_base_precondicoes_aplicado :
    contaComSaldoDez.sacar (-1) = (.valorInvalido, contaComSaldoDez) ∧
    contaComSaldoDez.sacar 15 = (.saldoInsuficiente, contaComSaldoDez) ∧
    contaComSaldoDez.sacar 4
      = (.ok, { contaComSaldoDez with saldo := contaComSaldoDez.saldo - 4 }) := by
  refine ⟨(saque_base_precondicoes contaComSaldoDez (-1)).1 (by norm_num),
    (saque_base_precondicoes contaComSaldoDez 15).2.1 (by norm_num) ?_,
    (saque_base_precondicoes contaComSaldoDez 4).2.2 (by norm_num) ?_⟩
  · show (15:ℚ) > 10
    norm_num
  · show ¬ (4:ℚ) > 10
    norm_num

/-- **C8.** For every deposit or withdrawal operation on any account state,
base or checking, directly or through the registration protocol, every
failure path leaves the account state entirely unchanged; the outcome is
surfaced purely as the returned `Resultado` (whose `toBool` is the boolean
the caller sees) — the operations are total functions, so no fault crosses
a component boundary. -/
theorem falha_nao_muta_estado (c : Conta) (cc : ContaCorrente) (v : ℚ) :
    ((c.sacar v).1 ≠ .ok → (c.sacar v).2 = c) ∧
    ((c.depositar v).1 ≠ .ok → (c.depositar v).2 = c) ∧
    ((Saque.registrar c v).1 ≠ .ok → (Saque.registrar c v).2 = c) ∧
    ((Deposito.registrar c v).1 ≠ .ok → (Deposito.registrar c v).2 = c) ∧
    ((cc.sacar v).1 ≠ .ok → (cc.sacar v).2 = cc) ∧
    ((cc.depositar v).1 ≠ .ok → (cc.depositar v).2 = cc) ∧
    ((Saque.registrarCorrente cc v).1 ≠ .ok →
      (Saque.registrarCorrente cc v).2 = cc) ∧
    ((Deposito.registrarCorrente cc v).1 ≠ .ok →
      (Deposito.registrarCorrente cc v).2 = cc) := by
  exact ⟨Conta.sacar_fst_ne_ok c v, Conta.depositar_fst_ne_ok c v,
    saqueRegistrar_snd_ne_ok c v, depositoRegistrar_snd_ne_ok c v,
    ContaCorrente.sacar_snd_ne_ok cc v, ContaCorrente.depositar_snd_ne_ok cc v,
    saqueRegistrarCorrente_snd_ne_ok cc v,
    depositoRegistrarCorrente_snd_ne_ok cc v⟩

/-- Witness for C8 at concrete inputs. -/
theorem falha_nao_muta_estado_aplicado :
    ((Conta.novaConta 1).sacar (-1)).2 = Conta.novaConta 1 ∧
    ((ContaCorrente.novaConta 1).depositar 0).2 = ContaCorrente.novaConta 1 := by
  exact ⟨(falha_nao_muta_estado (Conta.novaConta 1)
      (ContaCorrente.novaConta 1) (-1)).1 (by decide),
    (falha_nao_muta_estado (Conta.novaConta 1)
      (ContaCorrente.novaConta 1) 0).2.2.2.2.2.1 (by decide)⟩

lemma depositoRegistrar_historico (c : Conta) (v : ℚ) :
    (Deposito.registrar c v).2.historico =
      c.historico ++ (if (Deposito.registrar c v).1 = .ok
        then [(⟨.deposito, v⟩ : Registro)] else []) := by
  by_cases hok : (c.depositar v).1 = .ok
  · have h1 := Conta.depositar_ok_conds c v hok
    rw [depositoRegistrar_of_ok c v h1]
    simp
  · rw [depositoRegistrar_of_ne_ok c v hok]
    simp [hok, Conta.depositar_fst_ne_ok c v hok]

lemma saqueRegistrar_historico (c : Conta) (v : ℚ) :
    (Saque.registrar c v).2.historico =
      c.historico ++ (if (Saque.registrar c v).1 = .ok
        then [(⟨.saque, v⟩ : Registro)] else []) := by
  by_cases hok : (c.sacar v).1 = .ok
  · obtain ⟨h1, h2⟩ := Conta.sacar_ok_conds c v hok
    rw [saqueRegistrar_of_ok c v h1 h2]
    simp
  · rw [saqueRegistrar_of_ne_ok c v hok]
    simp [hok, Conta.sacar_fst_ne_ok c v hok]

lemma depositoRegistrarCorrente_historico (cc : ContaCorrente) (v : ℚ) :
    (Deposito.registrarCorrente cc v).2.historico =
      cc.historico ++ (if (Deposito.registrarCorrente cc v).1 = .ok
        then [(⟨.deposito, v⟩ : Registro)] else []) := by
  by_cases hok : (cc.depositar v).1 = .ok
  · have h1 := Conta.depositar_ok_conds cc.toConta v hok
    rw [depositoRegistrarCorrente_of_ok cc v h1]
    simp
  · rw [depositoRegistrarCorrente_of_ne_ok cc v hok]
    have h2 := ContaCorrente.depositar_snd_ne_ok cc v hok
    simp [hok, h2]

lemma saqueRegistrarCorrente_historico (cc : ContaCorrente) (v : ℚ) :
    (Saque.registrarCorrente cc v).2.historico =
      cc.historico ++ (if (Saque.registrarCorrente cc v).1 = .ok
        then [(⟨.saque, v⟩ : Registro)] else []) := by
  by_cases hok : (cc.sacar v).1 = .ok
  · obtain ⟨hL, hN, h1, h2⟩ := sacarCorrente_ok_conds cc v hok
    rw [saqueRegistrarCorrente_of_ok cc v hL hN h1 h2]
    simp
  · rw [saqueRegistrarCorrente_of_ne_ok cc v hok]
    have h2 := ContaCorrente.sacar_snd_ne_ok cc v hok
    simp [hok, h2]

/-- The history record a transaction produces when it succeeds (the tag is
the transaction's class name, the value its amount). -/
def registroDe : Transacao → Registro
  | .deposito v => ⟨.deposito, v⟩
  | .saque v => ⟨.saque, v⟩

/-- Specification-side trace (stated from the spec's words, for comparison
with the code's history): the records of exactly those requested
transactions that report success, one each, in execution order, on a base
account. -/
def registrosBemSucedidos : Conta → List Transacao → List Registro
  | _, [] => []
  | c, t :: ts =>
    (if (realizarTransacao c t).1 = .ok then [registroDe t] else [])
      ++ registrosBemSucedidos (realizarTransacao c t).2 ts

/-- Specification-side trace on a checking account. -/
def registrosBemSucedidosCorrente :
    ContaCorrente → List Transacao → List Registro
  | _, [] => []
  | cc, t :: ts =>
    (if (realizarTransacaoCorrente cc t).1 = .ok then [registroDe t] else [])
      ++ registrosBemSucedidosCorrente (realizarTransacaoCorrente cc t).2 ts

lemma realizarTransacao_historico (c : Conta) (t : Transacao) :
    (realizarTransacao c t).2.historico =
      c.historico ++ (if (realizarTransacao c t).1 = .ok
        then [registroDe t] else []) := by
  cases t with
  | deposito v =>
      simpa [realizarTransacao, registroDe]
        using depositoRegistrar_historico c v
  | saque v =>
      simpa [realizarTransacao, registroDe] using saqueRegistrar_historico c v

lemma realizarTransacaoCorrente_historico (cc : ContaCorrente)
    (t : Transacao) :
    (realizarTransacaoCorrente cc t).2.historico =
      cc.historico ++ (if (realizarTransacaoCorrente cc t).1 = .ok
        then [registroDe t] else []) := by
  cases t with
  | deposito v =>
      simpa [realizarTransacaoCorrente, registroDe]
        using depositoRegistrarCorrente_historico cc v
  | saque v =>
      simpa [realizarTransacaoCorrente, registroDe]
        using saqueRegistrarCorrente_historico cc v

lemma Conta.executar_historico (ts : List Transacao) :
    ∀ (c : Conta),
      (c.executar ts).historico = c.historico ++ registrosBemSucedidos c ts := by
  induction ts with
  | nil => intro c; simp [Conta.executar, registrosBemSucedidos]
  | cons t ts ih =>
      intro c
      rw [Conta.executar, ih, registrosBemSucedidos,
        realizarTransacao_historico, List.append_assoc]

lemma executarCorrente_historico (ts : List Transacao) :
    ∀ (cc : ContaCorrente),
      (cc.executar ts).historico
        = cc.historico ++ registrosBemSucedidosCorrente cc ts := by
  induction ts with
  | nil => intro cc; simp [ContaCorrente.executar, registrosBemSucedidosCorrente]
  | cons t ts ih =>
      intro cc
      rw [ContaCorrente.executar, ih, registrosBemSucedidosCorrente,
        realizarTransacaoCorrente_historico, List.append_assoc]

/-- **C9.** For every account state (base or checking) and every sequence
of requested transactions run through the registration protocol, the final
history is the initial history with exactly the records of the successful
transactions appended, one record each, in execution order: no reordering,
no removal, no duplication, and no record for a failed attempt. -/
theorem historico_em_ordem (c : Conta) (cc : ContaCorrente)
    (ts : List Transacao) :
    (c.executar ts).historico = c.historico ++ registrosBemSucedidos c ts ∧
    (cc.executar ts).historico
      = cc.historico ++ registrosBemSucedidosCorrente cc ts :=
  ⟨Conta.executar_historico ts c, executarCorrente_historico ts cc⟩

/-- **C10.** For every checking account whose withdrawal count is already
at (or beyond) the maximum, a withdrawal of any non-positive amount that
does not exceed the ceiling is rejected by the max-withdrawals gate, not by
the base positivity check: the reported failure is `maxSaquesAtingido`, not
`valorInvalido`, because both checking-account gates are evaluated before
the base `sacar` is consulted. -/
theorem valor_nao_positivo_no_limite_de_saques (cc : ContaCorrente) (v : ℚ)
    (hcap : cc.limiteSaques ≤ numeroSaques cc.historico) (hv : v ≤ 0)
    (hlim : v ≤ cc.limite) :
    (cc.sacar v).1 = .maxSaquesAtingido ∧
    (cc.sacar v).1 ≠ .valorInvalido := by
  have hL : ¬ v > cc.limite := not_lt.mpr hlim
  have hN : numeroSaques cc.historico ≥ cc.limiteSaques := hcap
  have h : (cc.sacar v).1 = .maxSaquesAtingido := by
    simp [ContaCorrente.sacar, hL, hN]
  exact ⟨h, by rw [h]; simp⟩

/-- Witness for C10 at a concrete input. -/
theorem valor_nao_positivo_no_limite_de_saques_aplicado :
    (contaNoLimiteDeSaques.sacar 0).1 = .maxSaquesAtingido ∧
    (contaNoLimiteDeSaques.sacar 0).1 ≠ .valorInvalido := by
  refine valor_nao_positivo_no_limite_de_saques contaNoLimiteDeSaques 0
    (by decide) (by norm_num) ?_
  show (0:ℚ) ≤ 500
  norm_num
